import Mathlib

/-!
# Verification of the annatar Real-Debrid provider core

Shallow embedding of `src/annatar/debrid/real_debrid_provider.py` and
`src/annatar/debrid/debrid_service.py`.

Modelling conventions:
* Python exceptions are modelled by the `PyErr` type; fallible code returns
  `Except PyErr α`.
* JSON dictionaries returned by the Real-Debrid API are modelled by structures
  whose optional fields (`Option _`) stand for keys that may be missing or null.
* Calls made to the remote provider are recorded in a `List RdCall` trace;
  responses of the remote provider are supplied as oracle parameters, so all
  theorems quantify over every possible provider behaviour.
* `asyncio.Event` cancellation (`stop.is_set()`) is modelled by a predicate
  `stop : Nat → Bool` giving the value observed at the check performed just
  before loop iteration `i`.
-/

namespace Annatar

/-- Kinds of Python exceptions that the embedded code can raise or catch.
`providerExc msg video` models `ProviderException(msg, video)` from
`annatar.debrid.exceptions`; `validationError` models a pydantic
`ValidationError` raised while constructing a model such as `StreamLink`;
`keyError`/`indexError` model the built-in lookup errors; `otherError` stands
for any other exception type. -/
inductive PyErr where
  | providerExc (message : String) (videoFile : String)
  | keyError (key : String)
  | indexError
  | validationError (field : String)
  | otherError (message : String)
deriving DecidableEq, Repr

/-- `annatar.debrid.models.StreamLink` (pydantic model with required fields
`size : int`, `name : str`, `url : str`). -/
structure StreamLink where
  size : Int
  name : String
  url : String
deriving DecidableEq, Repr

/-- The JSON value found under the `"id"` key of an entry of
`torrent_info["files"]`: the code checks `isinstance(file_id, str)`, so the
model keeps the distinction between string and numeric ids. -/
inductive FileId where
  | str (s : String)
  | num (n : Int)
deriving DecidableEq, Repr

/-- One entry of `torrent_info["files"]` as used by `create_download_link`. -/
structure TorrentFile where
  id : FileId
  path : String
  bytes : Int
  selected : Int
deriving DecidableEq, Repr

/-- A torrent-info dictionary as returned by the Real-Debrid
`/torrents/info/{id}` and `/torrents` endpoints.  `filename` and `bytes` are
optional: the code reads them with `dict.get`, which yields `None` when the
key is absent. -/
structure TorrentInfo where
  id : String
  hash : String
  status : String
  filename : Option String
  bytes : Option Int
  links : List String
  files : List TorrentFile
deriving DecidableEq, Repr

/-- Outbound provider calls recorded while running the embedded code.
`addNewTorrent` abstracts the composite `add_new_torrent` helper; the
`get_torrent_info` polls performed inside `wait_for_status` are abstracted by
the wait oracles. -/
inductive RdCall where
  | getTorrents
  | getInfo (id : String)
  | addMagnet (magnet : String)
  | addNewTorrent
  | selectFiles (id : String) (fileIds : String)
  | unrestrict (link : String)
  | delete (id : String)
deriving DecidableEq, Repr

/-- `true` exactly for `RdCall.delete _` events. -/
def RdCall.isDelete : RdCall → Bool
  | .delete _ => true
  | _ => false

/-- `true` exactly for `RdCall.selectFiles _ _` events
(`/torrents/selectFiles`, i.e. file selection / download start). -/
def RdCall.isSelectFiles : RdCall → Bool
  | .selectFiles _ _ => true
  | _ => false

/-- `true` exactly for `RdCall.unrestrict _` events
(`/unrestrict/link`, i.e. download-link creation). -/
def RdCall.isUnrestrict : RdCall → Bool
  | .unrestrict _ => true
  | _ => false

/-! ## `RealDebridProvider.get_stream_for_torrent` (lines 147-180)

The function first awaits `get_available_torrent(info_hash)` (modelled by the
`lookup` oracle: that call performs a `GET /torrents` request and can itself
raise), then builds a `StreamLink` from the returned dictionary.  Constructing
`StreamLink(name=torrent_info.get("filename"), size=torrent_info.get("bytes"),
url=...)` raises a pydantic `ValidationError` when `filename` or `bytes` is
missing/None, because both fields are required non-optional in the model. -/

/-- Body of `get_stream_for_torrent` (the code inside the `try:`), before the
`except (KeyError, IndexError, ProviderException)` handler is applied.
Returns the result together with the trace of provider calls. -/
def get_stream_for_torrent_body (apiKey infoHash : String)
    (lookup : Except PyErr (Option TorrentInfo)) :
    Except PyErr (Option StreamLink) × List RdCall :=
  match lookup with
  | .error e => (.error e, [.getTorrents])
  | .ok none => (.ok none, [.getTorrents])
  | .ok (some ti) =>
    if ti.links ≠ [] then
      -- url = f"/rd/{self.api_key}/{info_hash}/{torrent_info.get('id')}/{torrent_info.get('filename')}"
      -- StreamLink(name=..., size=..., url=...) validates name : str and size : int
      match ti.filename, ti.bytes with
      | some fn, some sz =>
        (.ok (some { name := fn, size := sz,
                     url := "/rd/" ++ apiKey ++ "/" ++ infoHash ++ "/" ++ ti.id ++ "/" ++ fn }),
         [.getTorrents])
      | none, _ => (.error (.validationError "name"), [.getTorrents])
      | some _, none => (.error (.validationError "size"), [.getTorrents])
    else (.ok none, [.getTorrents])

/-- The exception types named in the `except (KeyError, IndexError,
ProviderException)` clause of `get_stream_for_torrent`. -/
def isCaughtByStreamForTorrent : PyErr → Bool
  | .keyError _ => true
  | .indexError => true
  | .providerExc _ _ => true
  | _ => false

/-- `RealDebridProvider.get_stream_for_torrent`: the body wrapped in
`try ... except (KeyError, IndexError, ProviderException): return None`. -/
def get_stream_for_torrent (apiKey infoHash : String)
    (lookup : Except PyErr (Option TorrentInfo)) :
    Except PyErr (Option StreamLink) × List RdCall :=
  match get_stream_for_torrent_body apiKey infoHash lookup with
  | (.error e, tr) =>
    if isCaughtByStreamForTorrent e then (.ok none, tr) else (.error e, tr)
  | (.ok v, tr) => (.ok v, tr)

/-! ## `RealDebridProvider.get_stream_links` (lines 71-119)

The loop iterates over `torrents`, checks `stop.is_set()` before each torrent,
awaits `get_stream_for_torrent(torrent, 0)` and yields the result when it is
truthy.  The `max_results` parameter is accepted (and documented as
"Maximum number of results to return") but never consulted by the loop body;
the model keeps the parameter to mirror the signature.  The generator has a
`try/finally` but no `except`, so an exception escaping
`get_stream_for_torrent` escapes the generator; the model therefore returns
the links yielded before any escaping exception, the escaping exception if
any, and the list of indices of torrents whose processing was started. -/

def get_stream_links_go (stop : Nat → Bool)
    (resolve : Nat → Except PyErr (Option StreamLink)) :
    Nat → List String → List StreamLink × Option PyErr × List Nat
  | _, [] => ([], none, [])
  | i, _ :: ts =>
    if stop i then ([], none, [])
    else
      match resolve i with
      | .error e => ([], some e, [i])
      | .ok none =>
        let (ls, e, ps) := get_stream_links_go stop resolve (i + 1) ts
        (ls, e, i :: ps)
      | .ok (some l) =>
        let (ls, e, ps) := get_stream_links_go stop resolve (i + 1) ts
        (l :: ls, e, i :: ps)

/-- `RealDebridProvider.get_stream_links`.  `resolve i` models
`await self.get_stream_for_torrent(torrents[i], 0)` and `stop i` the value of
`stop.is_set()` observed before iteration `i`.  `maxResults` mirrors the
unused `max_results` parameter. -/
def get_stream_links (torrents : List String) (stop : Nat → Bool)
    (maxResults : Nat) (resolve : Nat → Except PyErr (Option StreamLink)) :
    List StreamLink × Option PyErr × List Nat :=
  get_stream_links_go stop resolve 0 torrents

/-! ## `DebridService.wait_for_status` (debrid_service.py lines 143-165) -/

/-- The `ProviderException` raised when the poll budget is exhausted. -/
def waitTimeoutErr (target : String) : PyErr :=
  .providerExc ("Torrent did not reach " ++ target ++ " status.")
    "torrent_not_downloaded.mp4"

/-- The `for _ in range(max_retries)` loop of `wait_for_status`.
`infoSeq n` is the response to the `n`-th `get_torrent_info` call (counted
from `start`); the second component of the result is the number of
`get_torrent_info` fetches performed. -/
def wait_for_status_loop (infoSeq : Nat → TorrentInfo) (target : String) :
    Nat → Nat → Except PyErr TorrentInfo × Nat
  | _, 0 => (.error (waitTimeoutErr target), 0)
  | start, remaining + 1 =>
    let ti := infoSeq start
    if ti.status = target then (.ok ti, 1)
    else
      -- await asyncio.sleep(retry_interval), then next iteration
      let (res, n) := wait_for_status_loop infoSeq target (start + 1) remaining
      (res, n + 1)

/-- `DebridService.wait_for_status`: optional shortcut on the supplied
`torrent_info`, then the retry loop.  Returns the result and the number of
`get_torrent_info` fetches performed. -/
def wait_for_status (infoSeq : Nat → TorrentInfo) (target : String)
    (maxRetries : Nat) (torrentInfo : Option TorrentInfo) :
    Except PyErr TorrentInfo × Nat :=
  match torrentInfo with
  | some ti =>
    if ti.status = target then (.ok ti, 0)
    else wait_for_status_loop infoSeq target 0 maxRetries
  | none => wait_for_status_loop infoSeq target 0 maxRetries

/-- The terminal-failure statuses named in the source
(`["magnet_error", "error", "virus", "dead"]`). -/
def terminalStatuses : List String := ["magnet_error", "error", "virus", "dead"]

/-- Modelled from the spec: the polling algorithm claimed in spec §4.4 for
`wait_for_status` — each iteration fetches the info, returns on the target
status, fails `TorrentNotDownloaded` immediately on a terminal-failure status,
and otherwise sleeps and retries; exhausting the budget fails
`TorrentNotDownloaded`.  This definition follows the spec's words and exists
only to be compared with `wait_for_status`, which is translated from the
source. -/
def spec_wait_for_status_loop (infoSeq : Nat → TorrentInfo) (target : String) :
    Nat → Nat → Except PyErr TorrentInfo × Nat
  | _, 0 => (.error (waitTimeoutErr target), 0)
  | start, remaining + 1 =>
    let ti := infoSeq start
    if ti.status = target then (.ok ti, 1)
    else if ti.status ∈ terminalStatuses then (.error (waitTimeoutErr target), 1)
    else
      let (res, n) := spec_wait_for_status_loop infoSeq target (start + 1) remaining
      (res, n + 1)

/-- Modelled from the spec: entry point of the claimed §4.4 algorithm. -/
def spec_wait_for_status (infoSeq : Nat → TorrentInfo) (target : String)
    (maxRetries : Nat) : Except PyErr TorrentInfo × Nat :=
  spec_wait_for_status_loop infoSeq target 0 maxRetries

/-! ## `RealDebridProvider._handle_service_specific_errors` (lines 182-235) -/

/-- The `error_mapping` dictionary literal of
`_handle_service_specific_errors`, keyed by the provider's numeric error
code. -/
def error_mapping : Int → Option (String × String)
  | .negSucc 0 => some ("Internal error", "api_error.mp4")
  | .ofNat 1 => some ("Missing parameter", "api_error.mp4")
  | .ofNat 2 => some ("Bad parameter value", "api_error.mp4")
  | .ofNat 3 => some ("Unknown method", "api_error.mp4")
  | .ofNat 4 => some ("Method not allowed", "api_error.mp4")
  | .ofNat 5 => some ("Slow down", "too_many_requests.mp4")
  | .ofNat 6 => some ("Resource unreachable", "api_error.mp4")
  | .ofNat 7 => some ("Resource not found", "file_error.mp4")
  | .ofNat 8 => some ("Bad token (expired, invalid)", "invalid_token.mp4")
  | .ofNat 9 => some ("Permission denied", "invalid_token.mp4")
  | .ofNat 10 => some ("Two-factor authentication needed", "auth_error.mp4")
  | .ofNat 11 => some ("Two-factor authentication pending", "auth_error.mp4")
  | .ofNat 12 => some ("Invalid login", "auth_error.mp4")
  | .ofNat 13 => some ("Invalid password", "auth_error.mp4")
  | .ofNat 14 => some ("Account locked", "account_error.mp4")
  | .ofNat 15 => some ("Account not activated", "account_error.mp4")
  | .ofNat 16 => some ("Unsupported hoster", "hoster_error.mp4")
  | .ofNat 17 => some ("Hoster in maintenance", "hoster_error.mp4")
  | .ofNat 18 => some ("Hoster limit reached", "hoster_error.mp4")
  | .ofNat 19 => some ("Hoster temporarily unavailable", "hoster_error.mp4")
  | .ofNat 20 => some ("Hoster not available for free users", "hoster_error.mp4")
  | .ofNat 21 => some ("Too many active downloads", "torrent_limit.mp4")
  | .ofNat 22 => some ("IP Address not allowed", "ip_not_allowed.mp4")
  | .ofNat 23 => some ("Traffic exhausted", "traffic_error.mp4")
  | .ofNat 24 => some ("File unavailable", "file_error.mp4")
  | .ofNat 25 => some ("Service unavailable", "service_error.mp4")
  | .ofNat 26 => some ("Upload too big", "upload_error.mp4")
  | .ofNat 27 => some ("Upload error", "upload_error.mp4")
  | .ofNat 28 => some ("File not allowed", "file_error.mp4")
  | .ofNat 29 => some ("Torrent too big", "torrent_error.mp4")
  | .ofNat 30 => some ("Torrent file invalid", "transfer_error.mp4")
  | .ofNat 31 => some ("Action already done", "action_error.mp4")
  | .ofNat 32 => some ("Image resolution error", "image_error.mp4")
  | .ofNat 33 => some ("Torrent already active", "torrent_error.mp4")
  | .ofNat 34 => some ("Too many requests", "too_many_requests.mp4")
  | .ofNat 35 => some ("Infringing file", "content_infringing.mp4")
  | .ofNat 36 => some ("Fair Usage Limit", "too_many_requests.mp4")
  | .ofNat 37 => some ("Disabled endpoint", "api_error.mp4")
  | _ => none

/-- Rendering of the `error_code` value inside the f-string
`f"Unknown error: {error_message} (code: {error_code})"`
(Python prints a missing value as `None`). -/
def renderCode : Option Int → String
  | some c => toString c
  | none => "None"

/-- `RealDebridProvider._handle_service_specific_errors`: looks up
`error_data.get("error_code")` in `error_mapping` and raises the mapped
`ProviderException`, or the generic unknown-error `ProviderException` when
the code is absent from the mapping.  The function always raises; its result
is the raised exception. -/
def handle_service_specific_errors (errorCode : Option Int)
    (errorMessage : String) : PyErr :=
  match errorCode with
  | some c =>
    match error_mapping c with
    | some (message, videoFile) => .providerExc message videoFile
    | none =>
      .providerExc
        ("Unknown error: " ++ errorMessage ++ " (code: " ++ renderCode (some c) ++ ")")
        "api_error.mp4"
  | none =>
    .providerExc
      ("Unknown error: " ++ errorMessage ++ " (code: " ++ renderCode none ++ ")")
      "api_error.mp4"

/-! ## `DebridService._make_request` (debrid_service.py lines 36-141) -/

/-- An HTTP response as seen by `_make_request`: status code, whether the
`Content-Type` header equals `application/json`, the error fields of the JSON
error body (used by `_check_response_status`), whether the body parses as
JSON, and the body payloads. -/
structure HttpResponse where
  status : Nat
  jsonContentType : Bool
  errorCode : Option Int
  errorMessage : String
  jsonBody : Option String
  textBody : String
deriving DecidableEq, Repr

/-- Outcome of one `session.request(...)` attempt. -/
inductive AttemptOutcome where
  | success (r : HttpResponse)
  | connectError
  | timeoutError
  | clientError (message : String)
  | otherError (message : String)
deriving DecidableEq, Repr

/-- `DebridService._check_response_status`: `raise_for_status()` raises for
status ≥ 400; on error, when not expected to fail, a JSON error body is
classified by `_handle_service_specific_errors` (which always raises for this
provider), then 401 / 502-504 / other statuses map to their
`ProviderException`s. -/
def check_response_status (r : HttpResponse) (isExpectedToFail : Bool) :
    Except PyErr Unit :=
  if r.status < 400 then .ok ()
  else if isExpectedToFail then .ok ()
  else if r.jsonContentType then
    .error (handle_service_specific_errors r.errorCode r.errorMessage)
  else if r.status = 401 then
    .error (.providerExc "Invalid token" "invalid_token.mp4")
  else if r.status = 502 ∨ r.status = 503 ∨ r.status = 504 then
    .error (.providerExc "Debrid service is down." "debrid_service_down_error.mp4")
  else
    .error (.providerExc ("API Error " ++ r.textBody) "api_error.mp4")

/-- `DebridService._parse_response`. -/
def parse_response (r : HttpResponse)
    (isReturnNone isExpectedToFail isHttpResponse : Bool) : Except PyErr String :=
  if isReturnNone then .ok "{}"
  else
    match r.jsonBody with
    | some j => .ok j
    | none =>
      if isHttpResponse then .ok r.textBody
      else if isExpectedToFail then .ok r.textBody
      else
        .error (.providerExc ("Failed to parse response error. response: " ++ r.textBody)
          "api_error.mp4")

/-- `DebridService._handle_request_error`: translates a non-`ProviderException`
failure of an attempt into the `ProviderException` it raises.  (The `success`
case is unreachable: `_handle_request_error` is only invoked on failures.) -/
def handle_request_error : AttemptOutcome → PyErr
  | .timeoutError => .providerExc "Request timed out." "torrent_not_downloaded.mp4"
  | .connectError =>
    .providerExc "Failed to connect to Debrid service." "debrid_service_down_error.mp4"
  | .clientError m => .providerExc ("Request error: " ++ m) "api_error.mp4"
  | .otherError m => .providerExc ("Request error: " ++ m) "api_error.mp4"
  | .success _ => .providerExc "Request error: " "api_error.mp4"

/-- `DebridService._make_request`.  `attempts n` is the outcome of the
attempt made with `retry_count = n`; the second component of the result is
the number of connection attempts performed.  A `ClientConnectorError` is
retried only while `retry_count < 1`; a `ProviderException` raised by the
status check or body parsing propagates unchanged; every other failure is
translated by `_handle_request_error` without retrying. -/
def make_request (attempts : Nat → AttemptOutcome)
    (isReturnNone isExpectedToFail isHttpResponse : Bool) (retryCount : Nat) :
    Except PyErr String × Nat :=
  match attempts retryCount with
  | .success r =>
    (match check_response_status r isExpectedToFail with
     | .error e => .error e
     | .ok _ => parse_response r isReturnNone isExpectedToFail isHttpResponse, 1)
  | .connectError =>
    if h : retryCount < 1 then
      let (res, n) :=
        make_request attempts isReturnNone isExpectedToFail isHttpResponse (retryCount + 1)
      (res, n + 1)
    else (.error (handle_request_error .connectError), 1)
  | .timeoutError => (.error (handle_request_error .timeoutError), 1)
  | .clientError m => (.error (handle_request_error (.clientError m)), 1)
  | .otherError m => (.error (handle_request_error (.otherError m)), 1)
termination_by 1 - retryCount
decreasing_by omega

/-! ## `RealDebridProvider._create_download_link` (lines 384-401) -/

/-- The response of the `POST /unrestrict/link` call as inspected by
`_create_download_link` and `create_download_link`: the `download`,
`error_code` and `mimeType` keys (`Option` = key absent). -/
structure UnrestrictResp where
  download : Option String
  error_code : Option Int
  mimeType : Option String
deriving DecidableEq, Repr

/-- `RealDebridProvider._create_download_link`: `mkResp` is the outcome of the
underlying `make_request` (which can itself raise).  Returns the response
dict if it contains `download`, raises the traffic-limit `ProviderException`
on `error_code == 23`, and a generic failure otherwise. -/
def create_download_link_request (mkResp : Except PyErr UnrestrictResp) :
    Except PyErr UnrestrictResp :=
  match mkResp with
  | .error e => .error e
  | .ok resp =>
    match resp.download with
    | some _ => .ok resp
    | none =>
      if resp.error_code = some 23 then
        .error (.providerExc "Exceed remote traffic limit" "exceed_remote_traffic_limit.mp4")
      else
        .error (.providerExc "Failed to create download link." "api_error.mp4")

/-! ## `RealDebridProvider.create_download_link` (lines 413-508)

The oracles stand for awaited sub-calls: `selectedFileIndex` is the value of
`select_file_index_from_torrent` (from `annatar.debrid.parser`, a module
outside the sources whose result feeds this function as plain data);
`addMagnetId` the `id` field of the `add_magnet_link` response (`ok none` =
response falsy or without `id`); `waitSel`/`waitDl` the two `wait_for_status`
results; `startDl` the `start_torrent_download` result; `mkResp` the
`/unrestrict/link` response.  The `update_torrent_streams_metadata` background
task has no effect on the result and is not modelled. -/

/-- Python `str.startswith`: prefix test on the character sequences. -/
def py_startswith (s pre : String) : Bool :=
  pre.data.isPrefixOf s.data

/-- Rendering of the mime type inside the f-string of the non-video
`ProviderException` message. -/
def renderMime : Option String → String
  | some m => m
  | none => "None"

/-- The final phase of `create_download_link` (lines 485-508): the links
check, the `_create_download_link` call, the mime-type gate and the download
URL extraction; `ti` is the current `torrent_info` and `linkIndex` the chosen
index into `torrent_info["links"]`. -/
def cdl_final (ti : TorrentInfo) (linkIndex : Nat)
    (mkResp : Except PyErr UnrestrictResp) : Except PyErr String × List RdCall :=
  -- if not torrent_info.get("links") or not isinstance(torrent_info["links"], list)
  if ti.links = [] then
    (.error (.providerExc "No download links available" "transfer_error.mp4"), [])
  else
    match ti.links.get? linkIndex with
    | none => (.error .indexError, [])
    | some link =>
      match create_download_link_request mkResp with
      | .error e => (.error e, [.unrestrict link])
      | .ok resp =>
        let mimeOk := match resp.mimeType with
          | some m => py_startswith m "video"
          | none => false
        if mimeOk then
          match resp.download with
          | some d =>
            if d = "" then
              (.error (.providerExc "No download URL available" "transfer_error.mp4"),
               [.unrestrict link])
            else (.ok d, [.unrestrict link])
          | none =>
            (.error (.providerExc "No download URL available" "transfer_error.mp4"),
             [.unrestrict link])
        else
          (.error (.providerExc
            ("Requested file is not a video file, deleting torrent and retrying. "
              ++ renderMime resp.mimeType)
            "torrent_not_downloaded.mp4"),
           [.unrestrict link, .delete ti.id])

/-- Lines 426-483 of `create_download_link`: determine the `torrent_info` and
`link_index` used by the final phase, deleting and re-adding the torrent when
the previous file selection is inconsistent with the current provider state.
Returns the pair fed into the final phase, or the error that aborts the
pipeline early. -/
def cdl_stage (magnetLink : String) (torrentInfo : TorrentInfo)
    (selectedFileIndex : Nat)
    (addMagnetId : Except PyErr (Option String))
    (waitSel : Except PyErr TorrentInfo)
    (startDl : Except PyErr Unit)
    (waitDl : Except PyErr TorrentInfo) :
    Except PyErr (TorrentInfo × Nat) × List RdCall :=
  -- relevant_file = torrent_info["files"][selected_file_index]
  match torrentInfo.files.get? selectedFileIndex with
  | none => (.error .indexError, [])
  | some relevantFile =>
    let selectedFiles := torrentInfo.files.filter (fun f => f.selected = 1)
    if relevantFile ∉ selectedFiles ∨ selectedFiles.length ≠ torrentInfo.links.length then
      -- delete, re-add and re-download the torrent from scratch
      let tr0 : List RdCall := [.delete torrentInfo.id, .addMagnet magnetLink]
      match addMagnetId with
      | .error e => (.error e, tr0)
      | .ok none =>
        (.error (.providerExc "Failed to add magnet link" "transfer_error.mp4"), tr0)
      | .ok (some torrentId) =>
        match waitSel with
        | .error e => (.error e, tr0)
        | .ok ti2 =>
          -- file_id = torrent_info["files"][selected_file_index]["id"]
          match ti2.files.get? selectedFileIndex with
          | none => (.error .indexError, tr0)
          | some f =>
            match f.id with
            | .num _ =>
              (.error (.providerExc "Invalid file ID" "transfer_error.mp4"), tr0)
            | .str fileId =>
              match startDl with
              | .error e => (.error e, tr0 ++ [.selectFiles torrentId fileId])
              | .ok _ =>
                match waitDl with
                | .error e => (.error e, tr0 ++ [.selectFiles torrentId fileId])
                | .ok ti3 => (.ok (ti3, 0), tr0 ++ [.selectFiles torrentId fileId])
    else
      let linkIndex := selectedFiles.indexOf relevantFile
      (.ok (torrentInfo, linkIndex), [])

/-- `RealDebridProvider.create_download_link`: the staging phase followed by
the common final phase. -/
def create_download_link (magnetLink : String) (torrentInfo : TorrentInfo)
    (selectedFileIndex : Nat)
    (addMagnetId : Except PyErr (Option String))
    (waitSel : Except PyErr TorrentInfo)
    (startDl : Except PyErr Unit)
    (waitDl : Except PyErr TorrentInfo)
    (mkResp : Except PyErr UnrestrictResp) : Except PyErr String × List RdCall :=
  match cdl_stage magnetLink torrentInfo selectedFileIndex addMagnetId waitSel
    startDl waitDl with
  | (.error e, tr) => (.error e, tr)
  | (.ok (ti, linkIndex), tr) =>
    let (res, tr2) := cdl_final ti linkIndex mkResp
    (res, tr ++ tr2)

/-! ## `RealDebridProvider.get_video_url_from_realdebrid` (lines 511-576) -/

/-- `RealDebridProvider.get_video_url_from_realdebrid`.  `lookup` is the
`get_available_torrent` outcome, `addNew` the composite `add_new_torrent`
outcome, `waitSel0`/`waitDl0` the two `wait_for_status` outcomes of this
function, `startAll` the `start_torrent_download(..., "all")` outcome, and the
remaining oracles feed the final `create_download_link` call. -/
def get_video_url_from_realdebrid (infoHash magnetLink : String)
    (lookup : Except PyErr (Option TorrentInfo))
    (addNew : Except PyErr TorrentInfo)
    (waitSel0 : Except PyErr TorrentInfo)
    (startAll : Except PyErr Unit)
    (waitDl0 : Except PyErr TorrentInfo)
    (selectedFileIndex : Nat)
    (addMagnetId : Except PyErr (Option String))
    (waitSel : Except PyErr TorrentInfo)
    (startDl : Except PyErr Unit)
    (waitDl : Except PyErr TorrentInfo)
    (mkResp : Except PyErr UnrestrictResp) : Except PyErr String × List RdCall :=
  match lookup with
  | .error e => (.error e, [.getTorrents])
  | .ok v =>
    let lookedUp : Except PyErr TorrentInfo × List RdCall :=
      match v with
      | some ti => (.ok ti, [.getTorrents])
      | none =>
        match addNew with
        | .error e => (.error e, [.getTorrents, .addNewTorrent])
        | .ok ti => (.ok ti, [.getTorrents, .addNewTorrent])
    match lookedUp with
    | (.error e, tr) => (.error e, tr)
    | (.ok ti, tr) =>
      let torrentId := ti.id
      let status := ti.status
      if status ∈ terminalStatuses then
        (.error (.providerExc ("Torrent cannot be downloaded due to status: " ++ status)
          "transfer_error.mp4"),
         tr ++ [.delete torrentId])
      else
        let afterSelection : Except PyErr Unit × List RdCall :=
          if status ∈ ["queued", "downloading", "downloaded"] then (.ok (), tr)
          else
            match waitSel0 with
            | .error e => (.error e, tr)
            | .ok ti2 =>
              match startAll with
              | .ok _ => (.ok (), tr ++ [.selectFiles ti2.id "all"])
              | .error (.providerExc m _) =>
                (.error (.providerExc ("Failed to start torrent download, " ++ m)
                  "transfer_error.mp4"),
                 tr ++ [.selectFiles ti2.id "all", .delete torrentId])
              | .error e => (.error e, tr ++ [.selectFiles ti2.id "all"])
        match afterSelection with
        | (.error e, tr2) => (.error e, tr2)
        | (.ok _, tr2) =>
          match waitDl0 with
          | .error e => (.error e, tr2)
          | .ok ti3 =>
            let (res, tr3) :=
              create_download_link magnetLink ti3 selectedFileIndex addMagnetId
                waitSel startDl waitDl mkResp
            (res, tr2 ++ tr3)

/-! ## Token encoding (`encode_token_data` / `decode_token_str`, lines 271-284)

Python `str` values are modelled by their UTF-8 byte sequences (`List Nat`),
which makes `.encode()` / `.decode()` the identity on the representation; this
is faithful because UTF-8 encoding is injective, concatenation of strings is
concatenation of their encodings, and `split(":")` splits the encoding exactly
at the bytes equal to 58 (multi-byte UTF-8 sequences contain no byte below
128).  A `UnicodeDecodeError` is a `ValueError` and therefore lands in the
same `except` branch as a failed 3-way unpacking, which the embedding reaches
through its fallback cases.  The base64 text returned by `b64encode(...).decode()`
is modelled as `List Char`. -/

/-- Value → character of the standard base64 alphabet (`binascii.b2a_base64`). -/
def b64ValToChar (v : Nat) : Char :=
  if v < 26 then Char.ofNat (65 + v)
  else if v < 52 then Char.ofNat (97 + (v - 26))
  else if v < 62 then Char.ofNat (48 + (v - 52))
  else if v = 62 then '+'
  else '/'

/-- Character → value of the standard base64 alphabet; `none` for characters
outside the alphabet. -/
def b64CharToVal (c : Char) : Option Nat :=
  if 65 ≤ c.toNat ∧ c.toNat ≤ 90 then some (c.toNat - 65)
  else if 97 ≤ c.toNat ∧ c.toNat ≤ 122 then some (c.toNat - 97 + 26)
  else if 48 ≤ c.toNat ∧ c.toNat ≤ 57 then some (c.toNat - 48 + 52)
  else if c = '+' then some 62
  else if c = '/' then some 63
  else none

/-- `base64.b64encode` on a byte sequence, producing base64 text: three bytes
map to four alphabet characters, a final group of one or two bytes is padded
with `=`. -/
def b64encode : List Nat → List Char
  | [] => []
  | [b1] =>
    [b64ValToChar (b1 / 4), b64ValToChar (b1 % 4 * 16), '=', '=']
  | [b1, b2] =>
    [b64ValToChar (b1 / 4), b64ValToChar (b1 % 4 * 16 + b2 / 16),
     b64ValToChar (b2 % 16 * 4), '=']
  | b1 :: b2 :: b3 :: rest =>
    b64ValToChar (b1 / 4) :: b64ValToChar (b1 % 4 * 16 + b2 / 16) ::
    b64ValToChar (b2 % 16 * 4 + b3 / 64) :: b64ValToChar (b3 % 64) ::
    b64encode rest

/-- The decoding loop of CPython's `binascii.a2b_base64` in non-strict mode
(as called by `base64.b64decode` with the default `validate=False`).  It
processes one character at a time, carrying the quad position (0-3), the
pending high bits of the current group, the count of padding characters seen
for the current group, and the bytes emitted so far.  Characters outside the
alphabet are skipped; a `=` is ignored while fewer than two data characters
of the current group have been seen, and completes the decode — ignoring all
remaining input — once the group has at least two data characters and enough
padding; input ending inside a group is a `binascii.Error` (`none`). -/
def a2b_base64 : List Char → Nat → Nat → Nat → List Nat → Option (List Nat)
  | [], quadPos, _, _, acc => if quadPos = 0 then some acc else none
  | c :: rest, quadPos, leftchar, pads, acc =>
    if c = '=' then
      if 2 ≤ quadPos then
        if 4 ≤ quadPos + (pads + 1) then some acc
        else a2b_base64 rest quadPos leftchar (pads + 1) acc
      else a2b_base64 rest quadPos leftchar pads acc
    else
      match b64CharToVal c with
      | none => a2b_base64 rest quadPos leftchar pads acc
      | some v =>
        match quadPos with
        | 0 => a2b_base64 rest 1 v 0 acc
        | 1 => a2b_base64 rest 2 (v % 16) 0 (acc ++ [leftchar * 4 + v / 16])
        | 2 => a2b_base64 rest 3 (v % 4) 0 (acc ++ [leftchar * 16 + v / 4])
        | _ => a2b_base64 rest 0 0 0 (acc ++ [leftchar * 64 + v])

/-- `base64.b64decode` on a `str` argument (default `validate=False`): the
argument is first encoded as ASCII (`_bytes_from_decode_data`, raising
`ValueError` on any non-ASCII character — modelled as `none`, since the
`except` clause of `decode_token_str` catches `ValueError` and
`binascii.Error` alike), then decoded by the lenient `a2b_base64` loop. -/
def b64decode (s : List Char) : Option (List Nat) :=
  if s.all (fun c => c.toNat < 128) then a2b_base64 s 0 0 0 [] else none

/-- Python `str.split` with a one-character separator: splits at every
occurrence, keeping empty parts. -/
def splitByte (sep : Nat) : List Nat → List (List Nat)
  | [] => [[]]
  | b :: rest =>
    let r := splitByte sep rest
    if b = sep then [] :: r
    else
      match r with
      | [] => [[b]]
      | g :: gs => (b :: g) :: gs

/-- Result of `decode_token_str`: either the three-field dictionary or the
`{"private_token": token}` fallback. -/
inductive TokenData where
  | fields (clientId clientSecret code : List Nat)
  | privateToken (token : List Char)
deriving DecidableEq, Repr

/-- `RealDebridProvider.encode_token_data`:
`b64encode(f"{client_id}:{client_secret}:{code}".encode()).decode()`.
The arguments are UTF-8 byte sequences of the Python strings; 58 is the
byte of `":"`. -/
def encode_token_data (code clientId clientSecret : List Nat) : List Char :=
  b64encode (clientId ++ (58 :: (clientSecret ++ (58 :: code))))

/-- `RealDebridProvider.decode_token_str`:
`client_id, client_secret, code = b64decode(token).decode().split(":")` with
`except (ValueError, BinasciiError): return {"private_token": token}`.  The
fallback is reached when base64 decoding fails (`BinasciiError`) or when the
split does not produce exactly three parts (`ValueError` from unpacking; a
`UnicodeDecodeError` from `.decode()` is also a `ValueError`). -/
def decode_token_str (token : List Char) : TokenData :=
  match b64decode token with
  | none => .privateToken token
  | some bs =>
    match splitByte 58 bs with
    | [a, b, c] => .fields a b c
    | _ => .privateToken token

/-! ## Helper lemmas -/

/-- If no fetch within the budget matches the target, the poll loop exhausts
its budget and raises the timeout `ProviderException`. -/
theorem wait_for_status_loop_exhausts (infoSeq : Nat → TorrentInfo)
    (target : String) (start rem : Nat)
    (h : ∀ n, n < rem → (infoSeq (start + n)).status ≠ target) :
    wait_for_status_loop infoSeq target start rem
      = (.error (waitTimeoutErr target), rem) := by
  induction rem generalizing start with
  | zero => rfl
  | succ r ih =>
    have h0 : (infoSeq start).status ≠ target := by
      have := h 0 (by omega)
      simpa using this
    have hrec := ih (start + 1) (fun n hn => by
      have := h (n + 1) (by omega)
      simpa [Nat.add_assoc, Nat.add_comm 1 n] using this)
    simp [wait_for_status_loop, h0, hrec]

/-- The poll loop returns the first fetch whose status matches the target,
after exactly `m + 1` fetches. -/
theorem wait_for_status_loop_finds (infoSeq : Nat → TorrentInfo)
    (target : String) (start rem m : Nat) (hm : m < rem)
    (hbefore : ∀ n, n < m → (infoSeq (start + n)).status ≠ target)
    (hfound : (infoSeq (start + m)).status = target) :
    wait_for_status_loop infoSeq target start rem
      = (.ok (infoSeq (start + m)), m + 1) := by
  induction m generalizing start rem with
  | zero =>
    obtain ⟨r, rfl⟩ : ∃ r, rem = r + 1 := ⟨rem - 1, by omega⟩
    have h0 : (infoSeq start).status = target := by simpa using hfound
    simp [wait_for_status_loop, h0]
  | succ k ih =>
    obtain ⟨r, rfl⟩ : ∃ r, rem = r + 1 := ⟨rem - 1, by omega⟩
    have h0 : (infoSeq start).status ≠ target := by
      have := hbefore 0 (by omega)
      simpa using this
    have hrec := ih (start + 1) r (by omega)
      (fun n hn => by
        have := hbefore (n + 1) (by omega)
        simpa [Nat.add_assoc, Nat.add_comm 1 n] using this)
      (by simpa [Nat.add_assoc, Nat.add_comm 1 k] using hfound)
    have hidx : start + 1 + k = start + (k + 1) := by omega
    rw [hidx] at hrec
    simp [wait_for_status_loop, h0, hrec]

/-! ## Claims -/

/-- C1: `get_stream_links` is claimed to yield at most `max_results`
`StreamLink`s, but the loop never consults `max_results`: with two resolvable
torrents and `max_results = 1` it yields two links, contradicting the
documented "Maximum number of results to return". -/
theorem get_stream_links_ignores_max_results :
    (get_stream_links ["t0", "t1"] (fun _ => false) 1
      (fun i => (get_stream_for_torrent "key" ("t" ++ toString i)
        (.ok (some ⟨"A", "hash", "downloaded", some "f.mkv", some 100, ["l1"], []⟩))).1)
      ).1.length = 2
    ∧ ¬ (2 ≤ 1) := by
  exact ⟨rfl, by decide⟩

/-- C5 counterexample: with a provider that always reports the
terminal-failure status `dead` and `max_retries = 2`, `wait_for_status`
performs two fetches before failing; the claimed algorithm would fail
immediately after the first fetch upon seeing the terminal status. -/
theorem wait_for_status_no_terminal_exit :
    wait_for_status (fun _ => ⟨"i", "h", "dead", none, none, [], []⟩)
      "downloaded" 2 none = (.error (waitTimeoutErr "downloaded"), 2)
    ∧ spec_wait_for_status (fun _ => ⟨"i", "h", "dead", none, none, [], []⟩)
      "downloaded" 2 = (.error (waitTimeoutErr "downloaded"), 1)
    ∧ (2 : Nat) ≠ 1 := by
  exact ⟨rfl, rfl, by decide⟩

/-- C5 amended: `wait_for_status` (called without an initial `torrent_info`)
fetches the torrent info on each of at most `max_retries` iterations; it
returns the first fetch whose status equals the target (after `m + 1`
fetches); a terminal-failure status causes no early exit — when no fetch in
the budget matches the target, it fails as `TorrentNotDownloaded` after
exactly `max_retries` fetches. -/
theorem wait_for_status_characterization (infoSeq : Nat → TorrentInfo)
    (target : String) (k : Nat) :
    ((∀ n, n < k → (infoSeq n).status ≠ target) →
      wait_for_status infoSeq target k none = (.error (waitTimeoutErr target), k))
    ∧ (∀ m, m < k → (∀ n, n < m → (infoSeq n).status ≠ target) →
        (infoSeq m).status = target →
        wait_for_status infoSeq target k none = (.ok (infoSeq m), m + 1)) := by
  constructor
  · intro h
    have := wait_for_status_loop_exhausts infoSeq target 0 k (fun n hn => by
      simpa using h n hn)
    simpa [wait_for_status] using this
  · intro m hm hbefore hfound
    have := wait_for_status_loop_finds infoSeq target 0 k m hm
      (fun n hn => by simpa using hbefore n hn) (by simpa using hfound)
    simpa [wait_for_status] using this

/-- Witness for C5 amended: a provider that reports `downloading` once and
then `downloaded` reaches the target in two fetches; a provider that never
reports the target exhausts a budget of 2. -/
theorem wait_for_status_characterization_witness :
    wait_for_status
      (fun n => if n = 0 then ⟨"i", "h", "downloading", none, none, [], []⟩
        else ⟨"i", "h", "downloaded", none, none, [], []⟩)
      "downloaded" 3 none
      = (.ok ⟨"i", "h", "downloaded", none, none, [], []⟩, 2)
    ∧ wait_for_status (fun _ => ⟨"i", "h", "downloading", none, none, [], []⟩)
      "downloaded" 2 none = (.error (waitTimeoutErr "downloaded"), 2) := by
  constructor
  · exact (wait_for_status_characterization
      (fun n => if n = 0 then ⟨"i", "h", "downloading", none, none, [], []⟩
        else ⟨"i", "h", "downloaded", none, none, [], []⟩) "downloaded" 3).2
      1 (by decide)
      (by intro n hn; interval_cases n; simp)
      (by simp)
  · exact (wait_for_status_characterization
      (fun _ => ⟨"i", "h", "downloading", none, none, [], []⟩) "downloaded" 2).1
      (by intro n hn; simp)

/-- C7 counterexample: the error code 0 lies in the claimed range −1…37, yet
`error_mapping` has no entry for it, so `_handle_service_specific_errors`
resolves it to the generic unknown-error result instead of a defined table
pair. -/
theorem error_mapping_missing_zero :
    error_mapping 0 = none
    ∧ handle_service_specific_errors (some 0) "Unknown error"
        = .providerExc "Unknown error: Unknown error (code: 0)" "api_error.mp4"
    ∧ ((-1 : Int) ≤ 0 ∧ (0 : Int) ≤ 37) := by
  exact ⟨rfl, rfl, by decide⟩

/-- C7 amended: the classifier is total and exhaustive over the codes the
mapping actually defines, namely −1 and 1…37: each such code resolves to its
defined (message, hint) pair, and every code outside the mapping (including
0) resolves to the generic unknown-error result carrying the raw code and
message; in both cases the raised failure is a `ProviderException`, never an
unhandled exception. -/
theorem handle_service_specific_errors_exhaustive (c : Int) (msg : String) :
    ((c = -1 ∨ (1 ≤ c ∧ c ≤ 37)) →
      ∃ m v, error_mapping c = some (m, v)
        ∧ handle_service_specific_errors (some c) msg = .providerExc m v)
    ∧ (error_mapping c = none →
      handle_service_specific_errors (some c) msg
        = .providerExc ("Unknown error: " ++ msg ++ " (code: " ++ toString c ++ ")")
          "api_error.mp4") := by
  constructor
  · intro hc
    have hlb : -1 ≤ c := by rcases hc with h | ⟨h1, h2⟩ <;> omega
    have hub : c ≤ 37 := by rcases hc with h | ⟨h1, h2⟩ <;> omega
    have hne : c ≠ 0 := by rcases hc with h | ⟨h1, h2⟩ <;> omega
    interval_cases c <;> first | exact ⟨_, _, rfl, rfl⟩ | exact absurd rfl hne
  · intro h
    simp [handle_service_specific_errors, h, renderCode]

/-- Witness for C7 amended: code 23 resolves to the traffic-exhausted table
pair; code 0 (absent from the mapping) resolves to the generic unknown
result. -/
theorem handle_service_specific_errors_exhaustive_witness :
    (∃ m v, error_mapping 23 = some (m, v)
      ∧ handle_service_specific_errors (some 23) "x" = .providerExc m v)
    ∧ handle_service_specific_errors (some 0) "x"
        = .providerExc ("Unknown error: " ++ "x" ++ " (code: " ++ toString (0 : Int) ++ ")")
          "api_error.mp4" := by
  constructor
  · exact (handle_service_specific_errors_exhaustive 23 "x").1 (by decide)
  · exact (handle_service_specific_errors_exhaustive 0 "x").2 rfl

/-- C2 counterexample: a torrent-info response with links but a missing
`filename` makes the `StreamLink` constructor raise a pydantic
`ValidationError`, which is not in the `except (KeyError, IndexError,
ProviderException)` tuple; the exception escapes `get_stream_links` to the
consumer of the sequence instead of being converted into a skip. -/
theorem get_stream_links_exception_escapes :
    get_stream_links ["h1"] (fun _ => false) 5
      (fun _ => (get_stream_for_torrent "key" "h1"
        (.ok (some ⟨"A", "h1", "downloaded", none, some 100, ["l1"], []⟩))).1)
      = ([], some (.validationError "name"), [0])
    ∧ isCaughtByStreamForTorrent (.validationError "name") = false := by
  exact ⟨rfl, rfl⟩

/-- C2 amended: an internal error of type `KeyError`, `IndexError` or
`ProviderException` raised during per-torrent resolution is caught by
`get_stream_for_torrent` and converted into skipping that torrent (`None`);
an exception of any other type (for example, a validation error from a
torrent-info response with missing `filename` or `bytes`) is not caught and
escapes to the consumer of the sequence. -/
theorem get_stream_for_torrent_catches_exactly (apiKey infoHash : String)
    (lookup : Except PyErr (Option TorrentInfo)) (e : PyErr) :
    ((get_stream_for_torrent_body apiKey infoHash lookup).1 = .error e →
      isCaughtByStreamForTorrent e = true →
      (get_stream_for_torrent apiKey infoHash lookup).1 = .ok none)
    ∧ ((get_stream_for_torrent_body apiKey infoHash lookup).1 = .error e →
      isCaughtByStreamForTorrent e = false →
      (get_stream_for_torrent apiKey infoHash lookup).1 = .error e) := by
  rcases hB : get_stream_for_torrent_body apiKey infoHash lookup with ⟨res, tr⟩
  constructor
  · intro hb hc
    have hres : res = .error e := by simpa using hb
    subst hres
    simp [get_stream_for_torrent, hB, hc]
  · intro hb hc
    have hres : res = .error e := by simpa using hb
    subst hres
    simp [get_stream_for_torrent, hB, hc]

/-- Witness for C2 amended: a `ProviderException` raised by the torrent
lookup is converted into a skip, while a validation error escapes. -/
theorem get_stream_for_torrent_catches_exactly_witness :
    (get_stream_for_torrent "k" "h" (.error (.providerExc "boom" "v.mp4"))).1 = .ok none
    ∧ (get_stream_for_torrent "k" "h" (.error (.otherError "boom"))).1
        = .error (.otherError "boom") := by
  constructor
  · exact (get_stream_for_torrent_catches_exactly "k" "h"
      (.error (.providerExc "boom" "v.mp4")) (.providerExc "boom" "v.mp4")).1 rfl rfl
  · exact (get_stream_for_torrent_catches_exactly "k" "h"
      (.error (.otherError "boom")) (.otherError "boom")).2 rfl rfl

/-- C3 counterexample: `get_stream_for_torrent` never consults the torrent
status, so a torrent whose handle reports the terminal-failure status `dead`
but carries links is still yielded as a `StreamLink`, and no `deleteTorrent`
call is made for it. -/
theorem get_stream_for_torrent_yields_dead_torrent :
    get_stream_for_torrent "key" "h1"
      (.ok (some ⟨"A", "h1", "dead", some "f.mkv", some 100, ["l1"], []⟩))
      = (.ok (some ⟨100, "f.mkv", "/rd/key/h1/A/f.mkv"⟩), [.getTorrents])
    ∧ "dead" ∈ terminalStatuses
    ∧ ([RdCall.getTorrents].filter RdCall.isDelete) = [] := by
  refine ⟨rfl, by simp [terminalStatuses], rfl⟩

/-- C3 amended: in the `get_video_url_from_realdebrid` pipeline, a torrent
whose looked-up handle reports a terminal-failure status (`magnet_error`,
`error`, `virus` or `dead`) never produces a stream URL: resolution fails
with the transfer-error `ProviderException`, `deleteTorrent` is called on the
handle exactly once, and the handle never proceeds to file selection or
download-link creation.  (In the `get_stream_for_torrent` batch path the
status is not consulted at all — see the counterexample.) -/
theorem get_video_url_terminal_status_deletes_once
    (infoHash magnetLink : String) (ti : TorrentInfo)
    (addNew waitSel0 : Except PyErr TorrentInfo) (startAll : Except PyErr Unit)
    (waitDl0 : Except PyErr TorrentInfo) (selectedFileIndex : Nat)
    (addMagnetId : Except PyErr (Option String))
    (waitSel : Except PyErr TorrentInfo) (startDl : Except PyErr Unit)
    (waitDl : Except PyErr TorrentInfo) (mkResp : Except PyErr UnrestrictResp)
    (hterm : ti.status ∈ terminalStatuses) :
    (get_video_url_from_realdebrid infoHash magnetLink (.ok (some ti)) addNew
        waitSel0 startAll waitDl0 selectedFileIndex addMagnetId waitSel startDl
        waitDl mkResp).1
      = .error (.providerExc ("Torrent cannot be downloaded due to status: " ++ ti.status)
          "transfer_error.mp4")
    ∧ (get_video_url_from_realdebrid infoHash magnetLink (.ok (some ti)) addNew
        waitSel0 startAll waitDl0 selectedFileIndex addMagnetId waitSel startDl
        waitDl mkResp).2.filter RdCall.isDelete = [RdCall.delete ti.id]
    ∧ (get_video_url_from_realdebrid infoHash magnetLink (.ok (some ti)) addNew
        waitSel0 startAll waitDl0 selectedFileIndex addMagnetId waitSel startDl
        waitDl mkResp).2.filter RdCall.isSelectFiles = []
    ∧ (get_video_url_from_realdebrid infoHash magnetLink (.ok (some ti)) addNew
        waitSel0 startAll waitDl0 selectedFileIndex addMagnetId waitSel startDl
        waitDl mkResp).2.filter RdCall.isUnrestrict = [] := by
  refine ⟨?_, ?_, ?_, ?_⟩ <;>
    simp [get_video_url_from_realdebrid, hterm, RdCall.isDelete,
      RdCall.isSelectFiles, RdCall.isUnrestrict]

/-- Witness for C3 amended: a concrete dead torrent is rejected with exactly
one delete and no file selection or link creation. -/
theorem get_video_url_terminal_status_deletes_once_witness :
    (get_video_url_from_realdebrid "h1" "m1"
        (.ok (some ⟨"A", "h1", "dead", none, none, [], []⟩))
        (.ok ⟨"A", "h1", "dead", none, none, [], []⟩)
        (.ok ⟨"A", "h1", "dead", none, none, [], []⟩) (.ok ())
        (.ok ⟨"A", "h1", "dead", none, none, [], []⟩) 0 (.ok none)
        (.ok ⟨"A", "h1", "dead", none, none, [], []⟩) (.ok ())
        (.ok ⟨"A", "h1", "dead", none, none, [], []⟩)
        (.ok ⟨none, none, none⟩)).1
      = .error (.providerExc "Torrent cannot be downloaded due to status: dead"
          "transfer_error.mp4")
    ∧ (get_video_url_from_realdebrid "h1" "m1"
        (.ok (some ⟨"A", "h1", "dead", none, none, [], []⟩))
        (.ok ⟨"A", "h1", "dead", none, none, [], []⟩)
        (.ok ⟨"A", "h1", "dead", none, none, [], []⟩) (.ok ())
        (.ok ⟨"A", "h1", "dead", none, none, [], []⟩) 0 (.ok none)
        (.ok ⟨"A", "h1", "dead", none, none, [], []⟩) (.ok ())
        (.ok ⟨"A", "h1", "dead", none, none, [], []⟩)
        (.ok ⟨none, none, none⟩)).2.filter RdCall.isDelete = [RdCall.delete "A"] := by
  have h := get_video_url_terminal_status_deletes_once "h1" "m1"
    ⟨"A", "h1", "dead", none, none, [], []⟩
    (.ok ⟨"A", "h1", "dead", none, none, [], []⟩)
    (.ok ⟨"A", "h1", "dead", none, none, [], []⟩) (.ok ())
    (.ok ⟨"A", "h1", "dead", none, none, [], []⟩) 0 (.ok none)
    (.ok ⟨"A", "h1", "dead", none, none, [], []⟩) (.ok ())
    (.ok ⟨"A", "h1", "dead", none, none, [], []⟩)
    (.ok ⟨none, none, none⟩) (by simp [terminalStatuses])
  exact ⟨h.1, h.2.1⟩

/-- `mime_type and isinstance(mime_type, str) and mime_type.startswith("video")`:
the gate applied to the `mimeType` field of the unrestrict response. -/
def mimeIsVideo : Option String → Bool
  | some m => py_startswith m "video"
  | none => false

/-- `_create_download_link` succeeds only by returning the response of a
successful request whose dict contains `download`. -/
theorem create_download_link_request_ok (mkResp : Except PyErr UnrestrictResp)
    (r : UnrestrictResp) (h : create_download_link_request mkResp = .ok r) :
    mkResp = .ok r ∧ r.download ≠ none := by
  rcases mkResp with e | resp
  · simp [create_download_link_request] at h
  · rcases hd : resp.download with _ | d
    · simp only [create_download_link_request, hd] at h
      split at h <;> cases h
    · simp only [create_download_link_request, hd] at h
      cases h
      exact ⟨rfl, by simp [hd]⟩

/-- The final phase of `create_download_link` returns a download URL only
when the unrestrict response carries a mime type starting with `video`. -/
theorem cdl_final_ok_mime (ti : TorrentInfo) (linkIndex : Nat)
    (mkResp : Except PyErr UnrestrictResp) (u : String)
    (h : (cdl_final ti linkIndex mkResp).1 = .ok u) :
    ∃ r m, mkResp = .ok r ∧ r.mimeType = some m ∧ py_startswith m "video" = true := by
  unfold cdl_final at h
  split at h
  · cases h
  · split at h
    · cases h
    · rcases hreq : create_download_link_request mkResp with e | resp <;> rw [hreq] at h
      · cases h
      · obtain ⟨hmk, _⟩ := create_download_link_request_ok mkResp resp hreq
        rcases hm : resp.mimeType with _ | m
        · simp [hm] at h
        · rcases hv : py_startswith m "video" with _ | _
          · simp [hm, hv] at h
          · exact ⟨resp, m, hmk, hm, hv⟩

/-- C4: a download URL is produced by `create_download_link` only when the
resolved download link's mime type is a string beginning with `video`; and
whenever a download link has been resolved (the unrestrict call was reached)
with a mime type that does not begin with `video`, the torrent is deleted and
resolution fails with the `TorrentNotDownloaded` `ProviderException` instead
of a stream URL being produced. -/
theorem create_download_link_mime_gate (magnetLink : String)
    (torrentInfo : TorrentInfo) (selectedFileIndex : Nat)
    (addMagnetId : Except PyErr (Option String))
    (waitSel : Except PyErr TorrentInfo) (startDl : Except PyErr Unit)
    (waitDl : Except PyErr TorrentInfo) (mkResp : Except PyErr UnrestrictResp)
    (ti : TorrentInfo) (linkIndex : Nat) (r : UnrestrictResp) (link : String)
    (d : String) :
    (∀ u, (create_download_link magnetLink torrentInfo selectedFileIndex
        addMagnetId waitSel startDl waitDl mkResp).1 = .ok u →
      ∃ r2 m, mkResp = .ok r2 ∧ r2.mimeType = some m ∧ py_startswith m "video" = true)
    ∧ (ti.links.get? linkIndex = some link → mkResp = .ok r →
        r.download = some d → mimeIsVideo r.mimeType = false →
        cdl_final ti linkIndex mkResp
          = (.error (.providerExc
              ("Requested file is not a video file, deleting torrent and retrying. "
                ++ renderMime r.mimeType) "torrent_not_downloaded.mp4"),
             [.unrestrict link, .delete ti.id])) := by
  constructor
  · intro u hu
    unfold create_download_link at hu
    split at hu
    · cases hu
    · exact cdl_final_ok_mime _ _ _ u (by simpa using hu)
  · intro hlink hmk hd hnv
    have hne : ti.links ≠ [] := by
      intro hnil
      rw [hnil] at hlink
      cases hlink
    have hreq : create_download_link_request mkResp = .ok r := by
      simp [create_download_link_request, hmk, hd]
    unfold cdl_final
    rw [if_neg hne, hlink, hreq]
    rcases hm : r.mimeType with _ | m
    · simp [hm]
    · have hv : py_startswith m "video" = false := by
        simpa [mimeIsVideo, hm] using hnv
      simp [hm, hv]

/-- Witness for C4: a non-video (`application/zip`) unrestrict response makes
the final phase delete the torrent and fail as `TorrentNotDownloaded`. -/
theorem create_download_link_mime_gate_witness :
    cdl_final ⟨"A", "h", "downloaded", none, none, ["l1"], []⟩ 0
      (.ok ⟨some "http://u", none, some "application/zip"⟩)
      = (.error (.providerExc
          ("Requested file is not a video file, deleting torrent and retrying. "
            ++ renderMime (some "application/zip")) "torrent_not_downloaded.mp4"),
         [.unrestrict "l1", .delete "A"]) := by
  exact (create_download_link_mime_gate "m" ⟨"A", "h", "downloaded", none, none, ["l1"], []⟩
    0 (.ok none) (.ok ⟨"A", "h", "downloaded", none, none, [], []⟩) (.ok ())
    (.ok ⟨"A", "h", "downloaded", none, none, [], []⟩)
    (.ok ⟨some "http://u", none, some "application/zip"⟩)
    ⟨"A", "h", "downloaded", none, none, ["l1"], []⟩ 0
    ⟨some "http://u", none, some "application/zip"⟩ "l1" "http://u").2
    rfl rfl rfl rfl

/-- Indices processed by the stream-link loop are all below the point at
which the stop signal is set. -/
theorem get_stream_links_go_processed_lt (stop : Nat → Bool)
    (resolve : Nat → Except PyErr (Option StreamLink)) (k : Nat)
    (h : ∀ i, stop i = decide (k ≤ i)) :
    ∀ (ts : List String) (i0 : Nat),
      ∀ j ∈ (get_stream_links_go stop resolve i0 ts).2.2, j < k := by
  intro ts
  induction ts with
  | nil => intro i0; simp [get_stream_links_go]
  | cons t ts ih =>
    intro i0 j hj
    by_cases hk : k ≤ i0
    · have hs : stop i0 = true := by rw [h i0]; exact decide_eq_true hk
      simp [get_stream_links_go, hs] at hj
    · have hs : stop i0 = false := by rw [h i0]; exact decide_eq_false hk
      cases hr : resolve i0 with
      | error e =>
        simp [get_stream_links_go, hs, hr] at hj
        omega
      | ok v =>
        cases v with
        | none =>
          simp [get_stream_links_go, hs, hr] at hj
          rcases hj with rfl | hj
          · omega
          · exact ih (i0 + 1) j hj
        | some l =>
          simp [get_stream_links_go, hs, hr] at hj
          rcases hj with rfl | hj
          · omega
          · exact ih (i0 + 1) j hj

/-- Once the stop signal is set from point `k` on, the loop's behaviour
coincides with the run on the first `k - i0` torrents. -/
theorem get_stream_links_go_take (stop : Nat → Bool)
    (resolve : Nat → Except PyErr (Option StreamLink)) (k : Nat)
    (h : ∀ i, stop i = decide (k ≤ i)) :
    ∀ (ts : List String) (i0 : Nat),
      get_stream_links_go stop resolve i0 ts
        = get_stream_links_go stop resolve i0 (ts.take (k - i0)) := by
  intro ts
  induction ts with
  | nil => intro i0; simp
  | cons t ts ih =>
    intro i0
    by_cases hk : k ≤ i0
    · have hs : stop i0 = true := by rw [h i0]; exact decide_eq_true hk
      have htake : k - i0 = 0 := by omega
      rw [htake]
      simp [get_stream_links_go, hs]
    · have hs : stop i0 = false := by rw [h i0]; exact decide_eq_false hk
      have htake : k - i0 = (k - (i0 + 1)) + 1 := by omega
      rw [htake, List.take_succ_cons]
      cases hr : resolve i0 <;>
        simp [get_stream_links_go, hs, hr, ih (i0 + 1)]

/-- C6: `get_stream_links` checks the stop signal before each torrent: when
the signal becomes set at point `k`, no torrent at a position ≥ `k` is
processed, and the whole run (the yielded links, any escaping exception and
the processed indices) equals the run on the first `k` torrents — the
`StreamLink`s already yielded before the signal are unaffected. -/
theorem get_stream_links_stop_signal (torrents : List String)
    (stop : Nat → Bool) (maxResults : Nat)
    (resolve : Nat → Except PyErr (Option StreamLink)) (k : Nat)
    (h : ∀ i, stop i = decide (k ≤ i)) :
    (∀ j ∈ (get_stream_links torrents stop maxResults resolve).2.2, j < k)
    ∧ get_stream_links torrents stop maxResults resolve
        = get_stream_links (torrents.take k) stop maxResults resolve := by
  constructor
  · exact get_stream_links_go_processed_lt stop resolve k h torrents 0
  · have := get_stream_links_go_take stop resolve k h torrents 0
    simpa [get_stream_links] using this

/-- Witness for C6: with the signal set from index 1 on, a three-torrent
batch behaves exactly like the batch of its first torrent. -/
theorem get_stream_links_stop_signal_witness :
    get_stream_links ["a", "b", "c"] (fun i => decide (1 ≤ i)) 9 (fun _ => .ok none)
      = get_stream_links (["a", "b", "c"].take 1) (fun i => decide (1 ≤ i)) 9
          (fun _ => .ok none) :=
  (get_stream_links_stop_signal ["a", "b", "c"] (fun i => decide (1 ≤ i)) 9
    (fun _ => .ok none) 1 (fun _ => rfl)).2

/-- An attempt entered with `retry_count = 1` is never retried again. -/
theorem make_request_no_second_retry (attempts : Nat → AttemptOutcome)
    (irn ief ihr : Bool) :
    (make_request attempts irn ief ihr 1).2 = 1 := by
  unfold make_request
  cases attempts 1 <;> simp

/-- A response with status ≥ 400 fails the status check when the request is
not expected to fail. -/
theorem check_response_status_error (r : HttpResponse)
    (h4 : 400 ≤ r.status) :
    ∃ e, check_response_status r false = .error e := by
  unfold check_response_status
  rw [if_neg (by omega : ¬ r.status < 400)]
  rw [if_neg (by decide : ¬ ((false : Bool) = true))]
  split_ifs <;> exact ⟨_, rfl⟩

/-- C8: `_make_request` performs at most two connection attempts; it makes a
second attempt exactly when the first fails with a connection error (and a
second connection failure is surfaced, not retried again); a timeout is
surfaced as the timed-out `ProviderException` after a single attempt; and a
5xx response (when the request is not expected to fail) is surfaced as an
error after a single attempt — no retry on timeouts or 5xx. -/
theorem make_request_retry_policy (attempts : Nat → AttemptOutcome)
    (irn ief ihr : Bool) :
    (make_request attempts irn ief ihr 0).2 ≤ 2
    ∧ ((make_request attempts irn ief ihr 0).2 = 2 ↔ attempts 0 = .connectError)
    ∧ (attempts 0 = .connectError → attempts 1 = .connectError →
        make_request attempts irn ief ihr 0
          = (.error (.providerExc "Failed to connect to Debrid service."
              "debrid_service_down_error.mp4"), 2))
    ∧ (attempts 0 = .timeoutError →
        make_request attempts irn ief ihr 0
          = (.error (.providerExc "Request timed out." "torrent_not_downloaded.mp4"), 1))
    ∧ (∀ r, attempts 0 = .success r → 500 ≤ r.status → ief = false →
        (∃ e, (make_request attempts irn ief ihr 0).1 = .error e)
        ∧ (make_request attempts irn ief ihr 0).2 = 1) := by
  have haux := make_request_no_second_retry attempts irn ief ihr
  have hstep : attempts 0 = .connectError →
      make_request attempts irn ief ihr 0
        = ((make_request attempts irn ief ihr 1).1,
           (make_request attempts irn ief ihr 1).2 + 1) := by
    intro h0
    conv_lhs => unfold make_request
    rw [h0]
    simp
  have hnonconnect : attempts 0 ≠ .connectError →
      (make_request attempts irn ief ihr 0).2 = 1 := by
    intro hne
    cases h0 : attempts 0 <;> first
      | exact absurd h0 hne
      | simp [make_request, h0]
  refine ⟨?_, ?_, ?_, ?_, ?_⟩
  · by_cases h0 : attempts 0 = .connectError
    · rw [hstep h0]
      simp [haux]
    · have := hnonconnect h0
      omega
  · constructor
    · intro h2
      by_contra hne
      have := hnonconnect hne
      omega
    · intro h0
      rw [hstep h0]
      simp [haux]
  · intro h0 h1
    rw [hstep h0]
    conv_lhs => unfold make_request
    rw [h1]
    simp [handle_request_error]
  · intro h0
    simp [make_request, h0, handle_request_error]
  · intro r h0 h5 hef
    subst hef
    obtain ⟨e, he⟩ := check_response_status_error r (by omega)
    constructor
    · exact ⟨e, by simp [make_request, h0, he]⟩
    · simp [make_request, h0]

/-- Witness for C8: a first-attempt connection failure followed by a timeout
gives two attempts; a double connection failure fails with the
connection-error `ProviderException`; a single timeout and a single 503 each
fail after one attempt. -/
theorem make_request_retry_policy_witness :
    ((make_request (fun n => if n = 0 then .connectError else .timeoutError)
        false false false 0).2 = 2 ↔
      (fun n => if n = 0 then (AttemptOutcome.connectError) else .timeoutError) 0
        = .connectError)
    ∧ make_request (fun _ => .connectError) false false false 0
        = (.error (.providerExc "Failed to connect to Debrid service."
            "debrid_service_down_error.mp4"), 2)
    ∧ make_request (fun _ => .timeoutError) false false false 0
        = (.error (.providerExc "Request timed out." "torrent_not_downloaded.mp4"), 1)
    ∧ (∃ e, (make_request (fun _ => .success ⟨503, false, none, "", none, "err"⟩)
        false false false 0).1 = .error e) := by
  refine ⟨?_, ?_, ?_, ?_⟩
  · exact (make_request_retry_policy
      (fun n => if n = 0 then .connectError else .timeoutError) false false false).2.1
  · exact (make_request_retry_policy (fun _ => .connectError) false false false).2.2.1
      rfl rfl
  · exact (make_request_retry_policy (fun _ => .timeoutError) false false false).2.2.2.1
      rfl
  · exact ((make_request_retry_policy
      (fun _ => .success ⟨503, false, none, "", none, "err"⟩) false false false).2.2.2.2
      ⟨503, false, none, "", none, "err"⟩ rfl (by decide) rfl).1

/-- C9: an unrestrict response with error code 23 and no `download` field is
classified as the traffic-exhausted `ProviderException`; that exception type
is caught by the per-torrent handler (the torrent is skipped, not yielded);
and a batch in which one torrent resolves to a skip continues with the next
torrent. -/
theorem traffic_exhausted_skip_continues (r : UnrestrictResp)
    (hd : r.download = none) (hc : r.error_code = some 23) :
    create_download_link_request (.ok r)
      = .error (.providerExc "Exceed remote traffic limit"
          "exceed_remote_traffic_limit.mp4")
    ∧ isCaughtByStreamForTorrent
        (.providerExc "Exceed remote traffic limit"
          "exceed_remote_traffic_limit.mp4") = true
    ∧ (∀ (t1 t2 : String) (resolve : Nat → Except PyErr (Option StreamLink))
        (l : StreamLink), resolve 0 = .ok none → resolve 1 = .ok (some l) →
        get_stream_links [t1, t2] (fun _ => false) 5 resolve = ([l], none, [0, 1])) := by
  refine ⟨?_, rfl, ?_⟩
  · simp [create_download_link_request, hd, hc]
  · intro t1 t2 resolve l h0 h1
    simp [get_stream_links, get_stream_links_go, h0, h1]

/-- Witness for C9: the concrete code-23 response is classified as the
traffic error and a two-torrent batch with a skipped first torrent still
yields the second torrent's link. -/
theorem traffic_exhausted_skip_continues_witness :
    create_download_link_request (.ok ⟨none, some 23, none⟩)
      = .error (.providerExc "Exceed remote traffic limit"
          "exceed_remote_traffic_limit.mp4")
    ∧ get_stream_links ["t0", "t1"] (fun _ => false) 5
        (fun i => if i = 0 then .ok none else .ok (some ⟨7, "n", "u"⟩))
        = ([⟨7, "n", "u"⟩], none, [0, 1]) := by
  have h := traffic_exhausted_skip_continues ⟨none, some 23, none⟩ rfl rfl
  exact ⟨h.1, h.2.2 "t0" "t1"
    (fun i => if i = 0 then .ok none else .ok (some ⟨7, "n", "u"⟩)) ⟨7, "n", "u"⟩
    rfl rfl⟩

/-- Decoding inverts encoding on each six-bit value. -/
theorem b64CharToVal_b64ValToChar :
    ∀ v, v < 64 → b64CharToVal (b64ValToChar v) = some v := by decide

/-- No six-bit value encodes to the padding character. -/
theorem b64ValToChar_ne_pad : ∀ v, v < 64 → ¬ (b64ValToChar v = '=') := by decide

/-- Every character produced by the encoder is ASCII. -/
theorem b64ValToChar_ascii : ∀ v, v < 64 → (b64ValToChar v).toNat < 128 := by decide

/-- An encoded byte sequence passes the ASCII check of
`_bytes_from_decode_data`. -/
theorem b64encode_ascii :
    ∀ (bs : List Nat), (∀ b ∈ bs, b < 256) →
      (b64encode bs).all (fun c => c.toNat < 128) = true := by
  intro bs
  induction bs using b64encode.induct with
  | case1 => intro _; rfl
  | case2 b1 =>
    intro h
    have h1 : b1 < 256 := h b1 (by simp)
    have a1 := b64ValToChar_ascii (b1 / 4) (by omega)
    have a2 := b64ValToChar_ascii (b1 % 4 * 16) (by omega)
    simp [b64encode, a1, a2]
  | case3 b1 b2 =>
    intro h
    have h1 : b1 < 256 := h b1 (by simp)
    have h2 : b2 < 256 := h b2 (by simp)
    have a1 := b64ValToChar_ascii (b1 / 4) (by omega)
    have a2 := b64ValToChar_ascii (b1 % 4 * 16 + b2 / 16) (by omega)
    have a3 := b64ValToChar_ascii (b2 % 16 * 4) (by omega)
    simp [b64encode, a1, a2, a3]
  | case4 b1 b2 b3 rest ih =>
    intro h
    have h1 : b1 < 256 := h b1 (by simp)
    have h2 : b2 < 256 := h b2 (by simp)
    have h3 : b3 < 256 := h b3 (by simp)
    have a1 := b64ValToChar_ascii (b1 / 4) (by omega)
    have a2 := b64ValToChar_ascii (b1 % 4 * 16 + b2 / 16) (by omega)
    have a3 := b64ValToChar_ascii (b2 % 16 * 4 + b3 / 64) (by omega)
    have a4 := b64ValToChar_ascii (b3 % 64) (by omega)
    have hrest := ih (fun b hb => h b (by simp [hb]))
    simp [b64encode, a1, a2, a3, a4]
    simpa using hrest

/-- Running the CPython decoding loop over an encoded byte sequence appends
exactly the original bytes to the accumulator: each full group of four
alphabet characters emits its three bytes, a final `XX==` group emits one
byte through the two-pad early exit, and a final `XXX=` group emits two bytes
through the one-pad early exit. -/
theorem a2b_base64_b64encode :
    ∀ (bs : List Nat), (∀ b ∈ bs, b < 256) →
      ∀ (acc : List Nat), a2b_base64 (b64encode bs) 0 0 0 acc = some (acc ++ bs) := by
  intro bs
  induction bs using b64encode.induct with
  | case1 => intro _ acc; simp [b64encode, a2b_base64]
  | case2 b1 =>
    intro h acc
    have h1 : b1 < 256 := h b1 (by simp)
    have k1 := b64CharToVal_b64ValToChar (b1 / 4) (by omega)
    have k2 := b64CharToVal_b64ValToChar (b1 % 4 * 16) (by omega)
    have n1 := b64ValToChar_ne_pad (b1 / 4) (by omega)
    have n2 := b64ValToChar_ne_pad (b1 % 4 * 16) (by omega)
    simp [b64encode, a2b_base64, k1, k2, n1, n2]
    omega
  | case3 b1 b2 =>
    intro h acc
    have h1 : b1 < 256 := h b1 (by simp)
    have h2 : b2 < 256 := h b2 (by simp)
    have k1 := b64CharToVal_b64ValToChar (b1 / 4) (by omega)
    have k2 := b64CharToVal_b64ValToChar (b1 % 4 * 16 + b2 / 16) (by omega)
    have k3 := b64CharToVal_b64ValToChar (b2 % 16 * 4) (by omega)
    have n1 := b64ValToChar_ne_pad (b1 / 4) (by omega)
    have n2 := b64ValToChar_ne_pad (b1 % 4 * 16 + b2 / 16) (by omega)
    have n3 := b64ValToChar_ne_pad (b2 % 16 * 4) (by omega)
    simp [b64encode, a2b_base64, k1, k2, k3, n1, n2, n3]
    omega
  | case4 b1 b2 b3 rest ih =>
    intro h acc
    have h1 : b1 < 256 := h b1 (by simp)
    have h2 : b2 < 256 := h b2 (by simp)
    have h3 : b3 < 256 := h b3 (by simp)
    have k1 := b64CharToVal_b64ValToChar (b1 / 4) (by omega)
    have k2 := b64CharToVal_b64ValToChar (b1 % 4 * 16 + b2 / 16) (by omega)
    have k3 := b64CharToVal_b64ValToChar (b2 % 16 * 4 + b3 / 64) (by omega)
    have k4 := b64CharToVal_b64ValToChar (b3 % 64) (by omega)
    have n1 := b64ValToChar_ne_pad (b1 / 4) (by omega)
    have n2 := b64ValToChar_ne_pad (b1 % 4 * 16 + b2 / 16) (by omega)
    have n3 := b64ValToChar_ne_pad (b2 % 16 * 4 + b3 / 64) (by omega)
    have n4 := b64ValToChar_ne_pad (b3 % 64) (by omega)
    have hrest := ih (fun b hb => h b (by simp [hb]))
    simp [b64encode, a2b_base64, k1, k2, k3, k4, n1, n2, n3, n4, hrest]
    constructor
    · omega
    constructor
    · omega
    · omega

/-- `b64decode` inverts `b64encode` on byte sequences. -/
theorem b64decode_b64encode (bs : List Nat) (h : ∀ b ∈ bs, b < 256) :
    b64decode (b64encode bs) = some bs := by
  unfold b64decode
  rw [if_pos (b64encode_ascii bs h)]
  have := a2b_base64_b64encode bs h []
  simpa using this

/-- Splitting a separator-free sequence gives that sequence as the single
part. -/
theorem splitByte_no_sep (sep : Nat) :
    ∀ (a : List Nat), sep ∉ a → splitByte sep a = [a] := by
  intro a
  induction a with
  | nil => intro _; rfl
  | cons b rest ih =>
    intro h
    have hb : ¬ (b = sep) := by
      intro e
      exact h (by simp [e])
    have hr : sep ∉ rest := fun hm => h (List.mem_cons_of_mem _ hm)
    simp [splitByte, hb, ih hr]

/-- Splitting past a separator-free prefix peels off that prefix as the
first part. -/
theorem splitByte_append (sep : Nat) :
    ∀ (a rest : List Nat), sep ∉ a →
      splitByte sep (a ++ (sep :: rest)) = a :: splitByte sep rest := by
  intro a
  induction a with
  | nil => intro rest _; simp [splitByte]
  | cons b a2 ih =>
    intro rest h
    have hb : ¬ (b = sep) := by
      intro e
      exact h (by simp [e])
    have ha : sep ∉ a2 := fun hm => h (List.mem_cons_of_mem _ hm)
    simp [splitByte, hb, ih rest ha]

/-- C10: token encoding and decoding round-trip.  For all byte strings
`code`, `client_id` and `client_secret` containing no `":"` (byte 58),
`decode_token_str (encode_token_data code client_id client_secret)` recovers
exactly the three fields; and every input that is not a base64 encoding of a
three-part colon-separated value decodes to the `private_token` fallback
without raising. -/
theorem token_roundtrip :
    (∀ code clientId clientSecret : List Nat,
      (∀ b ∈ clientId, b < 256) → (∀ b ∈ clientSecret, b < 256) →
      (∀ b ∈ code, b < 256) →
      (58 : Nat) ∉ clientId → (58 : Nat) ∉ clientSecret → (58 : Nat) ∉ code →
      decode_token_str (encode_token_data code clientId clientSecret)
        = .fields clientId clientSecret code)
    ∧ (∀ t : List Char,
      (∀ bs a b c, b64decode t = some bs → splitByte 58 bs ≠ [a, b, c]) →
      decode_token_str t = .privateToken t) := by
  constructor
  · intro code clientId clientSecret h1 h2 h3 n1 n2 n3
    have hall : ∀ b ∈ clientId ++ (58 :: (clientSecret ++ (58 :: code))), b < 256 := by
      intro b hb
      simp only [List.mem_append, List.mem_cons] at hb
      rcases hb with hb | rfl | hb | rfl | hb
      · exact h1 b hb
      · omega
      · exact h2 b hb
      · omega
      · exact h3 b hb
    have hd : b64decode (encode_token_data code clientId clientSecret)
        = some (clientId ++ (58 :: (clientSecret ++ (58 :: code)))) :=
      b64decode_b64encode _ hall
    have hsplit : splitByte 58 (clientId ++ (58 :: (clientSecret ++ (58 :: code))))
        = [clientId, clientSecret, code] := by
      rw [splitByte_append 58 clientId _ n1, splitByte_append 58 clientSecret _ n2,
        splitByte_no_sep 58 code n3]
    simp [decode_token_str, hd, hsplit]
  · intro t hno
    unfold decode_token_str
    rcases hdec : b64decode t with _ | bs
    · rfl
    · rcases hsp : splitByte 58 bs with _ | ⟨a, _ | ⟨b, _ | ⟨c, _ | ⟨d, e⟩⟩⟩⟩
      · simp [hsp]
      · simp [hsp]
      · simp [hsp]
      · exact absurd hsp (hno bs a b c hdec)
      · simp [hsp]

/-- Witness for C10: the encoding of `client_id = "id"`, `client_secret =
"s"`, `code = "co"` decodes back to the three fields, and a non-base64 input
falls back to the private token. -/
theorem token_roundtrip_witness :
    decode_token_str (encode_token_data [99, 111] [105, 100] [115])
      = .fields [105, 100] [115] [99, 111]
    ∧ decode_token_str ['a', 'b', 'c'] = .privateToken ['a', 'b', 'c'] := by
  constructor
  · exact token_roundtrip.1 [99, 111] [105, 100] [115]
      (by decide) (by decide) (by decide) (by decide) (by decide) (by decide)
  · refine token_roundtrip.2 ['a', 'b', 'c'] ?_
    intro bs a b c hdec
    have hnone : b64decode ['a', 'b', 'c'] = none := by rfl
    rw [hnone] at hdec
    exact absurd hdec (by simp)

end Annatar
